import Mathlib

/-!
Shallow embedding of the watch-exchange-bot sources (`src/wemb/bot.py`,
`src/wemb/common.py`).

Conventions used throughout this development:

* Python strings are Lean `String`s; Python `int` is Lean `Int`; `None` is
  `Option.none`.
* Asynchronous command handlers are embedded as pure functions from their
  inputs and the current database state to the ordered list of observable
  effects (chat messages sent or edited, database commits, command-tree sync
  calls) plus the resulting database state.  `LOGGER.debug` calls are not
  observable by any claim and are elided from the effect traces; the one
  `LOGGER.error` call that a claim depends on (in `sync_error`) is kept as an
  explicit output.
* The database is modelled as the list of persisted criterion rows; keyword
  rows are carried inside their owning criterion row (the one-to-many
  relationship of the schema), so deleting a row deletes its keywords with it.
-/

namespace Wemb

/-- Modelled from the spec: the `models` module is not among the reviewed
sources.  `SubmissionType` is an enumeration of the listing kind a criterion
watches for, with values corresponding to "want to buy" and "want to sell". -/
inductive SubmissionType where
  | wantToBuy
  | wantToSell
deriving DecidableEq

/-- Modelled from the spec: one case-insensitive search token (text content)
belonging to exactly one criterion.  Constructed in `bot.py` as
`Keyword(content=keyword)`. -/
structure Keyword where
  content : String
deriving DecidableEq

/-- Modelled from the spec: a persisted registered search.  Fields:
submission_type (required), an owned collection of keywords, all_required
(boolean, default true), min_transactions (integer at least 1, default 5).
Constructed in `bot.py` with exactly these keyword arguments. -/
structure SubmissionCriterion where
  submission_type : SubmissionType
  keywords : List Keyword
  all_required : Bool
  min_transactions : Int
deriving DecidableEq

/-- A stored row: the server-generated integer identity together with the
criterion it identifies. -/
abbrev CriterionRow := Int × SubmissionCriterion

/-- Category of Python whitespace characters recognised by `str.split()`
(restricted to the ASCII whitespace the sources can produce). -/
def isPySpace (c : Char) : Bool :=
  c = ' ' || c = '\t' || c = '\n' || c = '\x0d' || c = '\x0b' || c = '\x0c'

/-- Worker for `pySplit`: walks the character list, accumulating the current
token in reverse; whitespace flushes a non-empty accumulator and never emits
an empty token. -/
def splitWsAux : List Char → List Char → List (List Char)
  | [], acc => if acc.isEmpty then [] else [acc.reverse]
  | c :: rest, acc =>
    if isPySpace c then
      if acc.isEmpty then splitWsAux rest []
      else acc.reverse :: splitWsAux rest []
    else splitWsAux rest (c :: acc)

/-- Embedding of Python `str.split()` with no argument: split on runs of
whitespace, discarding leading, trailing and repeated separators, so that no
returned token is empty. -/
def pySplit (s : String) : List String :=
  (splitWsAux s.data []).map (fun cs => String.mk cs)

/-- `Searches.KeywordListTransformer.transform` (`bot.py` lines 117-121):
`[Keyword(content=keyword) for keyword in value.split()]`. -/
def transform (value : String) : List Keyword :=
  (pySplit value).map (fun keyword => { content := keyword })

/-- Observable effects of a command handler, in execution order. -/
inductive Effect where
  | sendMessage (content : String)
  | editResponse (content : String)
  | dbCommit
  | treeCopyGlobalTo (guild : Nat)
  | treeSync (guild : Option Nat)
deriving DecidableEq

/-- Result of a command handler that may change the stored rows: the ordered
effect trace and the database state after the handler returns. -/
structure CmdOutcome where
  effects : List Effect
  db : List CriterionRow
deriving DecidableEq

namespace Searches

/-- Outcome of `/searches add`: the effect trace and the list of criteria
persisted afterwards (the framework assigns the new row its identity at
commit, which no claim observes, so the add path tracks plain criteria). -/
structure AddOutcome where
  effects : List Effect
  db : List SubmissionCriterion
deriving DecidableEq

/-- Body of `Searches.add` (`bot.py` lines 130-160), after the framework has
decoded the arguments: send the placeholder, build the criterion from the
given fields, add it to the session, commit, then edit the reply to
`"Created!\n"` followed by the criterion's rendering.  The rendering
(`repr(criterion)`, defined in the absent `models` module) is abstracted as
the `render` argument. -/
def add (render : SubmissionCriterion → String) (db : List SubmissionCriterion)
    (submission_type : SubmissionType) (keywords : List Keyword)
    (all_required : Bool) (min_transactions : Int) : AddOutcome :=
  let criterion : SubmissionCriterion :=
    { submission_type := submission_type, keywords := keywords,
      all_required := all_required, min_transactions := min_transactions }
  { effects := [Effect.sendMessage "Creating...",
                Effect.dbCommit,
                Effect.editResponse ("Created!\n" ++ render criterion)],
    db := db ++ [criterion] }

/-- One slash-command invocation of `/searches add`, as the framework runs it:
`keywords` goes through `KeywordListTransformer`, an omitted `all_required` is
`True`, an omitted `min_transactions` is `5`, and a supplied
`min_transactions` below the declared `Range[int, 1]` lower bound is rejected
before the handler body runs (`none`). -/
def invokeAdd (render : SubmissionCriterion → String)
    (db : List SubmissionCriterion) (submission_type : SubmissionType)
    (keywords : String) (all_required : Option Bool)
    (min_transactions : Option Int) : Option AddOutcome :=
  let mt : Int := min_transactions.getD 5
  if mt < 1 then none
  else some (add render db submission_type (transform keywords)
    (all_required.getD true) mt)

/-- Body of `Searches.list` (`bot.py` lines 163-185): send the placeholder,
read every stored criterion with its keywords eagerly loaded, then edit the
reply to `"Search criteria:\n"` followed by the criteria's `str` renderings
joined with the separator `"\t\n"`.  The per-criterion rendering (`str(c)`,
defined in the absent `models` module) is abstracted as `render`. -/
def listCmd (render : SubmissionCriterion → String)
    (db : List CriterionRow) : List Effect :=
  [Effect.sendMessage "Please wait...",
   Effect.editResponse ("Search criteria:\n" ++
     String.intercalate "\t\n" (db.map (fun row => render row.snd)))]

/-- Body of `Searches.delete` (`bot.py` lines 191-216): send the placeholder;
`session.scalar(select(...).where(id == search_id))` yields the first stored
row with that identity, if any; when none exists the reply is edited to the
not-found message and the handler returns with the store untouched; otherwise
that row is deleted (its keywords go with it), the deletion is committed and
the reply is edited to the success message. -/
def delete (db : List CriterionRow) (search_id : Int) : CmdOutcome :=
  match db.find? (fun row => row.fst == search_id) with
  | none =>
    { effects := [Effect.sendMessage "Please wait...",
                  Effect.editResponse ("Search criteria not found for id " ++
                    toString search_id ++ "!")],
      db := db }
  | some _ =>
    { effects := [Effect.sendMessage "Please wait...",
                  Effect.dbCommit,
                  Effect.editResponse "Successfully deleted!"],
      db := db.eraseP (fun row => row.fst == search_id) }

end Searches

/-- The `target` values admitted by the `Literal["global", "here"]` annotation
of the `sync` command; any other literal is rejected by the framework before
the body runs and surfaces as `BadLiteralArgument` in `sync_error`. -/
inductive SyncTarget where
  | global
  | here
deriving DecidableEq

/-- Body of the `%sync` command (`bot.py` lines 67-86).  `guild` is
`ctx.guild` (`none` outside a guild context); `syncedCount` is the number of
commands the platform reports synced, observable only through the reply
text. -/
def sync (target : SyncTarget) (guild : Option Nat) (syncedCount : Nat) :
    List Effect :=
  match target with
  | SyncTarget.global =>
    [Effect.treeSync none,
     Effect.sendMessage ("Synced " ++ toString syncedCount ++
       " command(s) globally.")]
  | SyncTarget.here =>
    match guild with
    | none => [Effect.sendMessage "Not in a guild context!"]
    | some g =>
      [Effect.treeCopyGlobalTo g,
       Effect.treeSync (some g),
       Effect.sendMessage ("Synced " ++ toString syncedCount ++
         " command(s) to the current guild.")]

/-- The errors `sync_error` distinguishes: the two validation failures carry
the offending parameter's name (`error.param.name`); everything else is
opaque. -/
inductive CommandError where
  | missingRequiredArgument (param : String)
  | badLiteralArgument (param : String)
  | other (detail : String)
deriving DecidableEq

/-- Outcome of the `sync_error` handler: chat effects, messages logged at
error level, and the error re-raised to the framework, if any. -/
structure HandlerOutcome where
  effects : List Effect
  errorLogs : List String
  raised : Option CommandError
deriving DecidableEq

/-- The usage string of `sync_error` (`bot.py` line 91). -/
def usage_string : String := "Usage: `%sync <here|global>`"

/-- `sync_error` (`bot.py` lines 89-103): a missing required argument or a bad
literal argument is answered with a chat reply naming the parameter plus the
usage string; any other error is logged at error level and re-raised. -/
def sync_error (error : CommandError) : HandlerOutcome :=
  match error with
  | CommandError.missingRequiredArgument p =>
    { effects := [Effect.sendMessage ("A value for `" ++ p ++
        "` is missing!\n\t" ++ usage_string)],
      errorLogs := [], raised := none }
  | CommandError.badLiteralArgument p =>
    { effects := [Effect.sendMessage ("`" ++ p ++
        "` must be either `here` or `global`!\n\t" ++ usage_string)],
      errorLogs := [], raised := none }
  | CommandError.other d =>
    { effects := [],
      errorLogs := ["Unhandled exception for \x27sync\x27 command!"],
      raised := some (CommandError.other d) }

/-- Steps of the `__shutdown` coroutine (`bot.py` lines 219-240), in the order
it performs them. -/
inductive ShutdownEffect where
  | disposeEngine
  | cancelTask (id : Nat)
  | awaitGatherDiscard
  | reraise
  | stopLoop
deriving DecidableEq

/-- `__shutdown` (`bot.py` lines 219-240): dispose the database engine when
one was created; collect every task of the loop other than the current
(shutdown) task and cancel each; `await asyncio.gather(*tasks,
return_exceptions=True)` waits for all of them and swallows their failures
(never a `reraise` step); finally stop the event loop.  `tasks` lists the
identities `asyncio.all_tasks()` reports (the current task included) and
`current` is the task running the shutdown sequence. -/
def shutdownSequence (engineActive : Bool) (tasks : List Nat) (current : Nat) :
    List ShutdownEffect :=
  (if engineActive then [ShutdownEffect.disposeEngine] else []) ++
  ((tasks.filter (fun t => t != current)).map ShutdownEffect.cancelTask ++
   [ShutdownEffect.awaitGatherDiscard, ShutdownEffect.stopLoop])

/-- The synchronous database engine of `common.py`, identified by the URL it
was constructed against. -/
structure Engine where
  url : String
deriving DecidableEq

/-- The module-level mutable state of `common.py`: the `ENGINE` and
`LOG_LEVEL` globals, both initially `None`. -/
structure CommonState where
  ENGINE : Option Engine
  LOG_LEVEL : Option String
deriving DecidableEq

/-- `set_log_level` (`common.py` lines 11-14): records the process-wide log
level. -/
def set_log_level (s : CommonState) (level : String) : CommonState :=
  { s with LOG_LEVEL := some level }

/-- A logger as `get_logger` returns it: scoped to a name, carrying the level
it was given (the recorded `LOG_LEVEL`, possibly still unset). -/
structure Logger where
  name : String
  level : Option String
deriving DecidableEq

/-- The Python exception `get_logger` can raise. -/
inductive PyError where
  | valueError (msg : String)
deriving DecidableEq

/-- `get_logger` (`common.py` lines 17-32): `package_name is None` raises
`ValueError("package_name must be specified!")`; any actual string — the
empty string included — passes the check, and the function returns the logger
for that name with its level set to the recorded `LOG_LEVEL`.  (The
`logging.basicConfig` call reapplies a fixed global format on every call; it
touches no state any claim observes.) -/
def get_logger (LOG_LEVEL : Option String) (package_name : Option String) :
    Except PyError Logger :=
  match package_name with
  | none => Except.error (PyError.valueError "package_name must be specified!")
  | some name => Except.ok { name := name, level := LOG_LEVEL }

/-- Result of one `get_engine` call: the returned engine, the module state
afterwards, and the informational messages logged during the call. -/
structure EngineResult where
  engine : Engine
  state : CommonState
  infoLogs : List String
deriving DecidableEq

/-- `get_engine` (`common.py` lines 35-44): when `ENGINE` is unset, construct
it against the fixed placeholder connection string, log `"created engine"` at
info level, store it; afterwards (and on every later call) return the stored
instance with no logging. -/
def get_engine (s : CommonState) : EngineResult :=
  match s.ENGINE with
  | some e => { engine := e, state := s, infoLogs := [] }
  | none =>
    let e : Engine := { url := "sqlite:///test.db" }
    { engine := e, state := { s with ENGINE := some e },
      infoLogs := ["created engine"] }

/-! ## Helper lemmas -/

/-- No token emitted by `splitWsAux` is empty, whatever the accumulator. -/
theorem splitWsAux_ne_nil (l : List Char) :
    ∀ acc, ∀ t ∈ splitWsAux l acc, t ≠ [] := by
  induction l with
  | nil =>
    intro acc t ht
    by_cases ha : acc.isEmpty
    · simp [splitWsAux, ha] at ht
    · simp [splitWsAux, ha] at ht
      subst ht
      simp only [ne_eq, List.reverse_eq_nil_iff]
      simpa [List.isEmpty_iff] using ha
  | cons c rest ih =>
    intro acc t ht
    by_cases hs : isPySpace c
    · by_cases ha : acc.isEmpty
      · simp [splitWsAux, hs, ha] at ht
        exact ih [] t ht
      · simp [splitWsAux, hs, ha] at ht
        rcases ht with ht | ht
        · subst ht
          simp only [ne_eq, List.reverse_eq_nil_iff]
          simpa [List.isEmpty_iff] using ha
        · exact ih [] t ht
    · simp [splitWsAux, hs] at ht
      exact ih (c :: acc) t ht

/-- A character list made of whitespace only splits into no tokens. -/
theorem splitWsAux_all_space (l : List Char) (h : ∀ c ∈ l, isPySpace c) :
    splitWsAux l [] = [] := by
  induction l with
  | nil => simp [splitWsAux]
  | cons c rest ih =>
    have hc : isPySpace c := h c (by simp)
    simp only [splitWsAux, hc, if_pos, List.isEmpty_nil, if_true]
    exact ih (fun x hx => h x (by simp [hx]))

/-! ## Claim theorems -/

/-- Claim C1: for every input string given to the `/searches add` keywords
parameter, the keyword transformer produces one `Keyword` per
whitespace-separated token (its contents are exactly the split tokens, case,
order and multiplicity preserved), every produced keyword's content is
non-empty, the input "foo BAR" yields exactly the keywords "foo" and "BAR",
and repeated tokens yield duplicate keywords. -/
theorem keywordListTransformer_spec (value : String) :
    (∀ k ∈ transform value, k.content ≠ "") ∧
    (transform value).map Keyword.content = pySplit value ∧
    transform "foo BAR" = [{ content := "foo" }, { content := "BAR" }] ∧
    transform "dup dup" = [{ content := "dup" }, { content := "dup" }] := by
  refine ⟨?_, ?_, by decide, by decide⟩
  · intro k hk
    simp only [transform, List.mem_map] at hk
    obtain ⟨t, ht, rfl⟩ := hk
    simp only [pySplit, List.mem_map] at ht
    obtain ⟨cs, hcs, rfl⟩ := ht
    have hne : cs ≠ [] := splitWsAux_ne_nil value.data [] cs hcs
    intro hcon
    exact hne (by simpa using congrArg String.data hcon)
  · simp only [transform, List.map_map]
    exact List.map_id _

/-- Claim C1 witness: the keyword produced from the first token of
"foo BAR" has non-empty content. -/
theorem keywordListTransformer_spec_witness :
    ({ content := "foo" } : Keyword).content ≠ "" :=
  (keywordListTransformer_spec "foo BAR").1 { content := "foo" } (by decide)

/-- Claim C10: a keywords string that is empty or consists only of whitespace
makes the transformer return the empty list, and `/searches add` on such an
input still creates and commits a criterion owning zero keywords, so the
public interface does not guarantee a persisted criterion has a keyword. -/
theorem add_zero_keywords :
    (∀ s : String, (∀ c ∈ s.data, isPySpace c) → transform s = []) ∧
    transform "" = [] ∧
    transform "   " = [] ∧
    Searches.invokeAdd (fun _ => "") [] SubmissionType.wantToBuy "   "
        none none =
      some { effects := [Effect.sendMessage "Creating...",
                         Effect.dbCommit,
                         Effect.editResponse "Created!\n"],
             db := [{ submission_type := SubmissionType.wantToBuy,
                      keywords := [], all_required := true,
                      min_transactions := 5 }] } := by
  refine ⟨?_, by decide, by decide, by decide⟩
  intro s h
  simp [transform, pySplit, splitWsAux_all_space s.data h]

/-- Claim C10 witness: a single space is whitespace-only and transforms to no
keywords. -/
theorem add_zero_keywords_witness : transform " " = [] :=
  add_zero_keywords.1 " " (by decide)

/-- Claim C2: `/searches add` rejects a supplied `min_transactions` below 1
before the handler body runs; on every accepted invocation it first sends the
placeholder reply, then persists exactly one new criterion carrying the given
submission type, the transformed keyword list, the given `all_required`
(true when omitted) and the given `min_transactions` (5 when omitted),
commits it, and finally edits the reply to the rendering of that new
criterion (prefixed by the "Created!" acknowledgement line, exactly as the
handler formats it). -/
theorem searches_add_spec (render : SubmissionCriterion → String)
    (db : List SubmissionCriterion) (submission_type : SubmissionType)
    (keywords : String) (all_required : Option Bool)
    (min_transactions : Option Int) :
    (∀ n, min_transactions = some n → n < 1 →
      Searches.invokeAdd render db submission_type keywords all_required
        min_transactions = none) ∧
    (1 ≤ min_transactions.getD 5 →
      Searches.invokeAdd render db submission_type keywords all_required
        min_transactions =
      some { effects := [Effect.sendMessage "Creating...",
                         Effect.dbCommit,
                         Effect.editResponse ("Created!\n" ++ render
                           { submission_type := submission_type,
                             keywords := transform keywords,
                             all_required := all_required.getD true,
                             min_transactions := min_transactions.getD 5 })],
             db := db ++ [{ submission_type := submission_type,
                            keywords := transform keywords,
                            all_required := all_required.getD true,
                            min_transactions := min_transactions.getD 5 }] }) := by
  constructor
  · intro n hn hlt
    subst hn
    simp [Searches.invokeAdd, hlt]
  · intro h
    have hnot : ¬ (min_transactions.getD 5 < 1) := not_lt.mpr h
    simp [Searches.invokeAdd, Searches.add, hnot]

/-- Claim C2 witness: a concrete accepted invocation with both optional
arguments omitted persists one criterion with the two keywords of
"foo BAR", `all_required = true` and `min_transactions = 5`. -/
theorem searches_add_spec_witness :
    Searches.invokeAdd (fun _ => "R") [] SubmissionType.wantToSell "foo BAR"
        none none =
      some { effects := [Effect.sendMessage "Creating...",
                         Effect.dbCommit,
                         Effect.editResponse "Created!\nR"],
             db := [{ submission_type := SubmissionType.wantToSell,
                      keywords := [{ content := "foo" }, { content := "BAR" }],
                      all_required := true,
                      min_transactions := 5 }] } :=
  (searches_add_spec (fun _ => "R") [] SubmissionType.wantToSell "foo BAR"
    none none).2 (by decide)

/-- Claim C3: `/searches delete` with an id naming no stored criterion edits
its reply to the not-found message naming that id and leaves the stored rows
(and with them every keyword) unchanged, committing nothing; with an id that
names a stored criterion it deletes that row, commits, and edits the reply to
the success confirmation. -/
theorem searches_delete_spec (db : List CriterionRow) (search_id : Int) :
    ((∀ row ∈ db, row.fst ≠ search_id) →
      Searches.delete db search_id =
        { effects := [Effect.sendMessage "Please wait...",
                      Effect.editResponse ("Search criteria not found for id "
                        ++ toString search_id ++ "!")],
          db := db }) ∧
    ((∃ row ∈ db, row.fst = search_id) →
      Searches.delete db search_id =
        { effects := [Effect.sendMessage "Please wait...",
                      Effect.dbCommit,
                      Effect.editResponse "Successfully deleted!"],
          db := db.eraseP (fun row => row.fst == search_id) }) := by
  constructor
  · intro h
    have hf : db.find? (fun row => row.fst == search_id) = none := by
      rw [List.find?_eq_none]
      intro x hx
      simpa using h x hx
    simp [Searches.delete, hf]
  · rintro ⟨row, hrow, hid⟩
    have hf : (db.find? (fun row => row.fst == search_id)).isSome := by
      rw [List.find?_isSome]
      exact ⟨row, hrow, by simpa using hid⟩
    obtain ⟨r, hr⟩ := Option.isSome_iff_exists.mp hf
    simp [Searches.delete, hr]

/-- Claim C3 witness: deleting id 99999 from the empty store replies with the
not-found message for 99999 and leaves the store empty. -/
theorem searches_delete_spec_witness :
    Searches.delete [] 99999 =
      { effects := [Effect.sendMessage "Please wait...",
                    Effect.editResponse
                      "Search criteria not found for id 99999!"],
        db := [] } :=
  (searches_delete_spec [] 99999).1 (by decide)

/-- Claim C4: the shutdown sequence (run with the engine constructed, as it is
whenever a signal can fire while the loop runs) disposes the database engine
exactly once and does so first; every task other than the task running the
shutdown sequence is cancelled while that task itself never is; the cancelled
tasks' failures are awaited and discarded by the gather step, never re-raised;
and the event loop stops only at the very end, after all of that. -/
theorem shutdown_spec (tasks : List Nat) (current : Nat) :
    shutdownSequence true tasks current =
      ShutdownEffect.disposeEngine ::
        ((tasks.filter (fun t => t != current)).map ShutdownEffect.cancelTask ++
         [ShutdownEffect.awaitGatherDiscard, ShutdownEffect.stopLoop]) ∧
    (shutdownSequence true tasks current).count ShutdownEffect.disposeEngine
      = 1 ∧
    (∀ t ∈ tasks, t ≠ current →
      ShutdownEffect.cancelTask t ∈ shutdownSequence true tasks current) ∧
    ShutdownEffect.cancelTask current ∉ shutdownSequence true tasks current ∧
    ShutdownEffect.reraise ∉ shutdownSequence true tasks current ∧
    (shutdownSequence true tasks current).getLast?
      = some ShutdownEffect.stopLoop := by
  refine ⟨rfl, ?_, ?_, ?_, ?_, ?_⟩
  · have hmap : ((tasks.filter (fun t => t != current)).map
        ShutdownEffect.cancelTask).count ShutdownEffect.disposeEngine = 0 := by
      rw [List.count_eq_zero]
      simp
    simp [shutdownSequence, List.count_append, List.count_cons, hmap]
  · intro t ht hne
    simp only [shutdownSequence, if_pos, List.mem_cons, List.mem_append,
      List.mem_map, List.mem_filter]
    exact Or.inr (Or.inl ⟨t, ⟨ht, by simpa using hne⟩, rfl⟩)
  · simp [shutdownSequence, List.mem_filter]
  · simp [shutdownSequence]
  · have hsplit : shutdownSequence true tasks current =
        (ShutdownEffect.disposeEngine ::
          ((tasks.filter (fun t => t != current)).map ShutdownEffect.cancelTask
            ++ [ShutdownEffect.awaitGatherDiscard])) ++
          [ShutdownEffect.stopLoop] := by
      simp [shutdownSequence]
    rw [hsplit, List.getLast?_concat]

/-- Claim C4 witness: with tasks 0, 1, 2 on the loop and the shutdown task
being 1, task 0 is among the cancelled tasks. -/
theorem shutdown_spec_witness :
    ShutdownEffect.cancelTask 0 ∈ shutdownSequence true [0, 1, 2] 1 :=
  (shutdown_spec [0, 1, 2] 1).2.2.1 0 (by decide) (by decide)

/-- Claim C5: with the `ENGINE` global unset (as at process start), a call to
`get_engine` constructs the engine against the fixed placeholder connection
string, stores it, and logs exactly the informational "created engine"
message; and after any call, a further call returns the identical stored
engine instance, leaves the state unchanged, and logs nothing. -/
theorem get_engine_spec (s : CommonState) :
    (s.ENGINE = none →
      get_engine s =
        { engine := { url := "sqlite:///test.db" },
          state := { s with ENGINE := some { url := "sqlite:///test.db" } },
          infoLogs := ["created engine"] }) ∧
    get_engine (get_engine s).state =
      { engine := (get_engine s).engine,
        state := (get_engine s).state,
        infoLogs := [] } := by
  constructor
  · intro h
    simp [get_engine, h]
  · cases hE : s.ENGINE <;> simp [get_engine, hE]

/-- Claim C5 witness: from the initial state of `common.py`, the first call
constructs and logs, and the second call returns that same instance silently. -/
theorem get_engine_spec_witness :
    get_engine { ENGINE := none, LOG_LEVEL := none } =
      { engine := { url := "sqlite:///test.db" },
        state := { ENGINE := some { url := "sqlite:///test.db" },
                   LOG_LEVEL := none },
        infoLogs := ["created engine"] } :=
  (get_engine_spec { ENGINE := none, LOG_LEVEL := none }).1 rfl

/-- Claim C6: `sync_error` answers a missing required argument with a reply
naming the missing parameter plus the usage string, answers a bad literal
argument with a reply that the value must be `here` or `global` plus the
usage string, and for any other error logs at error level and re-raises it;
in the two reply cases nothing is logged, nothing is re-raised, and no
command-tree sync is attempted. -/
theorem sync_error_spec (p : String) (d : String) :
    sync_error (CommandError.missingRequiredArgument p) =
      { effects := [Effect.sendMessage ("A value for `" ++ p ++
          "` is missing!\n\t" ++ usage_string)],
        errorLogs := [], raised := none } ∧
    sync_error (CommandError.badLiteralArgument p) =
      { effects := [Effect.sendMessage ("`" ++ p ++
          "` must be either `here` or `global`!\n\t" ++ usage_string)],
        errorLogs := [], raised := none } ∧
    sync_error (CommandError.other d) =
      { effects := [],
        errorLogs := ["Unhandled exception for \x27sync\x27 command!"],
        raised := some (CommandError.other d) } ∧
    (∀ g, Effect.treeSync g ∉
      (sync_error (CommandError.missingRequiredArgument p)).effects) ∧
    (∀ g, Effect.treeSync g ∉
      (sync_error (CommandError.badLiteralArgument p)).effects) := by
  refine ⟨rfl, rfl, rfl, ?_, ?_⟩ <;> intro g <;> simp [sync_error]

/-- Claim C6 witness: the missing-argument reply for the command's `target`
parameter, at the concrete error value. -/
theorem sync_error_spec_witness :
    sync_error (CommandError.missingRequiredArgument "target") =
      { effects := [Effect.sendMessage
          "A value for `target` is missing!\n\tUsage: `%sync <here|global>`"],
        errorLogs := [], raised := none } :=
  (sync_error_spec "target" "").1

/-- Claim C7: `%sync here` outside any guild context replies exactly
"Not in a guild context!" and returns without invoking the command-tree sync
operation (and without copying the global tree). -/
theorem sync_here_no_guild (syncedCount : Nat) :
    sync SyncTarget.here none syncedCount =
      [Effect.sendMessage "Not in a guild context!"] ∧
    (∀ g, Effect.treeSync g ∉ sync SyncTarget.here none syncedCount) ∧
    (∀ g, Effect.treeCopyGlobalTo g ∉ sync SyncTarget.here none syncedCount)
    := by
  refine ⟨rfl, ?_, ?_⟩ <;> intro g <;> simp [sync]

/-- Claim C7 witness: the reply at a concrete synced-command count. -/
theorem sync_here_no_guild_witness :
    sync SyncTarget.here none 0 =
      [Effect.sendMessage "Not in a guild context!"] :=
  (sync_here_no_guild 0).1

/-- Claim C8 counterexample: with two stored criteria each rendered as "r",
the handler's reply body joins the renderings with the separator tab+newline
("\t\n"), which differs from the claim's newline-joined renderings. -/
theorem searches_list_counterexample :
    Searches.listCmd (fun _ => "r")
        [(1, { submission_type := SubmissionType.wantToBuy, keywords := [],
               all_required := true, min_transactions := 5 }),
         (2, { submission_type := SubmissionType.wantToBuy, keywords := [],
               all_required := true, min_transactions := 5 })] =
      [Effect.sendMessage "Please wait...",
       Effect.editResponse "Search criteria:\nr\t\nr"] ∧
    "Search criteria:\nr\t\nr" ≠
      "Search criteria:\n" ++ String.intercalate "\n" ["r", "r"] := by
  exact ⟨rfl, by decide⟩

/-- Claim C8 (amended): every invocation of `/searches list` sends the
placeholder reply, reads every stored criterion with keywords eagerly loaded,
and edits the reply to "Search criteria:" followed by a newline and the
renderings of the criteria joined with the separator tab+newline ("\t\n");
when no criteria exist nothing follows the heading's newline. -/
theorem searches_list_spec (render : SubmissionCriterion → String)
    (db : List CriterionRow) :
    Searches.listCmd render db =
      [Effect.sendMessage "Please wait...",
       Effect.editResponse ("Search criteria:\n" ++
         String.intercalate "\t\n" (db.map (fun row => render row.snd)))] ∧
    (db = [] →
      Searches.listCmd render db =
        [Effect.sendMessage "Please wait...",
         Effect.editResponse "Search criteria:\n"]) := by
  refine ⟨rfl, ?_⟩
  rintro rfl
  simp [Searches.listCmd, String.intercalate]

/-- Claim C8 witness: listing from an empty store yields the bare heading. -/
theorem searches_list_spec_witness :
    Searches.listCmd (fun _ => "r") [] =
      [Effect.sendMessage "Please wait...",
       Effect.editResponse "Search criteria:\n"] :=
  (searches_list_spec (fun _ => "r") []).2 rfl

/-- Claim C9 counterexample: `get_logger` with the empty package name does not
fail — the `package_name is None` check lets the empty string through and the
call returns the logger for the empty name. -/
theorem get_logger_counterexample :
    get_logger none (some "") = Except.ok { name := "", level := none } := rfl

/-- Claim C9 (amended): `get_logger` fails with the invalid-input error
exactly when `package_name` is absent (`None`); every provided string — the
empty string included — is accepted and yields a logger scoped to that name
whose level is whatever the recorded log level is, in particular the level
`set_log_level` last recorded. -/
theorem get_logger_spec (LOG_LEVEL : Option String)
    (package_name : Option String) :
    (package_name = none →
      get_logger LOG_LEVEL package_name =
        Except.error (PyError.valueError "package_name must be specified!")) ∧
    (∀ s, package_name = some s →
      get_logger LOG_LEVEL package_name =
        Except.ok { name := s, level := LOG_LEVEL }) ∧
    (∀ st lvl s, get_logger (set_log_level st lvl).LOG_LEVEL (some s) =
      Except.ok { name := s, level := some lvl }) := by
  refine ⟨?_, ?_, ?_⟩
  · rintro rfl
    rfl
  · rintro s rfl
    rfl
  · intro st lvl s
    rfl

/-- Claim C9 witness: the absent package name fails at a concrete state. -/
theorem get_logger_spec_witness :
    get_logger none none =
      Except.error (PyError.valueError "package_name must be specified!") :=
  (get_logger_spec none none).1 rfl

end Wemb
